import Mathlib

/-!
Verification of the Expense Tracker client (`src/app/page.js`).

The page component holds four pieces of reactive state (`items`, `newItem`,
`total`, `error`) and three pieces of behaviour: the `addItem` submit handler,
the `onSnapshot` subscription callback together with the total-deriving
effect, and the `deleteItem` handler.  We embed these shallowly: JavaScript
numbers are modelled as rationals extended with an explicit NaN, the store is
abstracted by the result of the asynchronous write (`ok` or `failure`), and
each handler becomes a pure state-transition function returning the new local
state together with the request it issued to the store (if any).
-/

/-- Model of a JavaScript number as used by this app: either NaN or an exact
rational value. -/
inductive JSNum where
  | nan : JSNum
  | num : ℚ → JSNum
deriving DecidableEq, Repr

/-- JavaScript `+` on numbers: NaN is absorbing, otherwise exact addition. -/
def jadd : JSNum → JSNum → JSNum
  | JSNum.num a, JSNum.num b => JSNum.num (a + b)
  | _, _ => JSNum.nan

/-- JavaScript `String.prototype.trim`, modelled on the character list:
drop whitespace from both ends. -/
def jsTrim (s : String) : String :=
  ⟨((s.data.dropWhile Char.isWhitespace).reverse.dropWhile Char.isWhitespace).reverse⟩

/-- Numeric value of a list of decimal digit characters, most significant
first. -/
def natOfDigits (cs : List Char) : ℕ :=
  cs.foldl (fun a c => 10 * a + (c.toNat - 48)) 0

/-- Parse an unsigned decimal literal `digits [ "." digits ]` (at least one
digit overall), as accepted by the JS `Number` coercion.  Returns `none` when
the characters are not such a literal. -/
def parseDecimal (cs : List Char) : Option ℚ :=
  match cs.span Char.isDigit with
  | (ip, rest) =>
    match rest with
    | [] => if ip.isEmpty then none else some (natOfDigits ip)
    | '.' :: fp =>
      if fp.all Char.isDigit && !(ip.isEmpty && fp.isEmpty) then
        some ((natOfDigits ip : ℚ) + (natOfDigits fp : ℚ) / (10 : ℚ) ^ fp.length)
      else none
    | _ => none

/-- Parse a signed decimal literal: optional `+`/`-` sign before the digits. -/
def parseSignedDecimal (cs : List Char) : Option ℚ :=
  match cs with
  | '+' :: t => parseDecimal t
  | '-' :: t => (parseDecimal t).map (fun q => -q)
  | _ => parseDecimal cs

/-- Model of the JS `Number(...)` coercion on strings, restricted to plain
decimal literals (the forms this app's numeric input produces; exponent, hex
and Infinity forms are omitted).  Whitespace is trimmed, the empty string
coerces to `0`, and anything unparsable is NaN. -/
def jsNumberOfString (s : String) : JSNum :=
  let cs := (jsTrim s).data
  if cs.isEmpty then JSNum.num 0
  else
    match parseSignedDecimal cs with
    | some q => JSNum.num q
    | none => JSNum.nan

/-- Digit string of `Number.prototype.toFixed(2)` for a non-negative rational:
the integer `n` closest to `100 * q` (ties to the larger `n`), printed with
two fractional digits. -/
def fixedDigits2 (q : ℚ) : String :=
  let n : ℤ := ⌊100 * q + 1 / 2⌋
  toString (n / 100) ++ "." ++ (if n % 100 < 10 then "0" else "") ++ toString (n % 100)

/-- Model of `Number.prototype.toFixed(2)`: `"NaN"` for NaN, otherwise the
sign followed by the two-decimal digit string of the absolute value. -/
def toFixed2 : JSNum → String
  | JSNum.nan => "NaN"
  | JSNum.num q => if q < 0 then "-" ++ fixedDigits2 (-q) else fixedDigits2 q

/-- An element of the `items` state: one document of the snapshot after the
callback's mapping (`{...doc.data(), id: doc.id, price: Number(doc.data().price)}`). -/
structure Item where
  id : String
  name : String
  price : JSNum
  createdAt : ℕ
deriving DecidableEq, Repr

/-- The `newItem` draft state: raw form input, both fields strings. -/
structure Draft where
  name : String
  price : String
deriving DecidableEq, Repr

/-- The component's local state: `items`, `newItem`, `total` and `error` from
`page.js`.  `total` is kept as the string produced by `toFixed(2)`. -/
structure AppState where
  items : List Item
  newItem : Draft
  total : String
  error : Option String
deriving DecidableEq, Repr

/-- Outcome of an asynchronous store write (`addDoc` / `deleteDoc`): the
promise either resolves or rejects. -/
inductive StoreResult where
  | ok : StoreResult
  | failure : StoreResult
deriving DecidableEq, Repr

/-- The document `addItem` passes to `addDoc`: trimmed name, coerced price,
creation timestamp. -/
structure NewRecord where
  name : String
  price : JSNum
  createdAt : ℕ
deriving DecidableEq, Repr

/-- The `addItem` handler of `page.js`.  It clears `error`, validates the
draft (name trimmed non-empty, then price string non-empty, first failure
wins), and on pass calls `addDoc` with the trimmed name, the `Number`-coerced
price and the current time; on resolve it resets the draft, on reject it sets
the failure message.  The initial `setError(null)` is folded into the final
`error` value of each branch.  The second component is the record handed to
`addDoc`, or `none` when validation stopped the write. -/
def addItem (s : AppState) (now : ℕ) (res : StoreResult) : AppState × Option NewRecord :=
  if jsTrim s.newItem.name = "" then
    ({ s with error := some "Please enter an expense name." }, none)
  else if s.newItem.price = "" then
    ({ s with error := some "Please enter an amount." }, none)
  else
    match res with
    | StoreResult.ok =>
      ({ s with error := none, newItem := { name := "", price := "" } },
       some { name := jsTrim s.newItem.name,
              price := jsNumberOfString s.newItem.price, createdAt := now })
    | StoreResult.failure =>
      ({ s with error := some "Failed to add item. Please try again." },
       some { name := jsTrim s.newItem.name,
              price := jsNumberOfString s.newItem.price, createdAt := now })

/-- A value as persisted in a document field: the store may hold a string, a
number, or no value at all for `price`. -/
inductive StoredVal where
  | str : String → StoredVal
  | num : ℚ → StoredVal
  | undef : StoredVal
deriving DecidableEq, Repr

/-- The JS `Number(...)` coercion applied to a stored field value. -/
def jsNumber : StoredVal → JSNum
  | StoredVal.str s => jsNumberOfString s
  | StoredVal.num q => JSNum.num q
  | StoredVal.undef => JSNum.nan

/-- One document of a subscription snapshot (`querySnapshot.docs`), with its
data fields and its id. -/
structure SnapshotDoc where
  id : String
  name : String
  price : StoredVal
  createdAt : ℕ
deriving DecidableEq, Repr

/-- The mapping inside the `onSnapshot` callback: spread the document data,
attach the id, and coerce `price` with `Number`. -/
def snapshotItems (docs : List SnapshotDoc) : List Item :=
  docs.map (fun d =>
    { id := d.id, name := d.name, price := jsNumber d.price, createdAt := d.createdAt })

/-- The total-deriving effect: `items.reduce((sum, item) => sum + item.price, 0)`
followed by `toFixed(2)`. -/
def computeTotal (items : List Item) : String :=
  toFixed2 (items.foldl (fun sum i => jadd sum i.price) (JSNum.num 0))

/-- Net state change of one `onSnapshot` callback delivery: `items` is
replaced wholesale by the mapped snapshot, and the dependent effect recomputes
`total` from the new `items`. -/
def snapshotStep (s : AppState) (docs : List SnapshotDoc) : AppState :=
  { s with items := snapshotItems docs, total := computeTotal (snapshotItems docs) }

/-- The render guard of the total row: `items.length > 0 && (...)`. -/
def totalRowRendered (items : List Item) : Bool :=
  decide (0 < items.length)

/-- The `deleteItem` handler of `page.js`: behind a blocking `window.confirm`;
when confirmed it clears `error` and calls `deleteDoc`, setting the failure
message if the write rejects; when declined nothing happens.  The second
component is the id handed to `deleteDoc`, or `none` when no store call was
made. -/
def deleteItem (s : AppState) (itemId : String) (confirmed : Bool) (res : StoreResult) :
    AppState × Option String :=
  if confirmed then
    match res with
    | StoreResult.ok => ({ s with error := none }, some itemId)
    | StoreResult.failure =>
      ({ s with error := some "Failed to delete item. Please try again." }, some itemId)
  else (s, none)

/-- Spec-side predicate of the claimed item invariant: the price is an actual
number and non-negative. -/
def priceOk : JSNum → Bool
  | JSNum.nan => false
  | JSNum.num q => decide (0 ≤ q)

/-- Spec-side sum of the `price` fields of an item list, by plain structural
recursion (to be compared with the `reduce`-style fold of `computeTotal`). -/
def sumPrices : List Item → JSNum
  | [] => JSNum.num 0
  | i :: t => jadd i.price (sumPrices t)

theorem jadd_assoc (a b c : JSNum) : jadd (jadd a b) c = jadd a (jadd b c) := by
  cases a <;> cases b <;> cases c <;> simp [jadd, add_assoc]

theorem jadd_num_zero_right (a : JSNum) : jadd a (JSNum.num 0) = a := by
  cases a <;> simp [jadd]

theorem jadd_num_zero_left (a : JSNum) : jadd (JSNum.num 0) a = a := by
  cases a <;> simp [jadd]

theorem jadd_nan_right (a : JSNum) : jadd a JSNum.nan = JSNum.nan := by
  cases a <;> rfl

theorem foldl_jadd (L : List Item) (a : JSNum) :
    L.foldl (fun sum i => jadd sum i.price) a = jadd a (sumPrices L) := by
  induction L generalizing a with
  | nil => simp [sumPrices, jadd_num_zero_right, List.foldl]
  | cons i t ih => simp [List.foldl, sumPrices, ih, jadd_assoc]

theorem computeTotal_eq (L : List Item) : computeTotal L = toFixed2 (sumPrices L) := by
  unfold computeTotal
  rw [foldl_jadd, jadd_num_zero_left]

theorem sumPrices_nan {L : List Item} {i : Item} (hi : i ∈ L) (h : i.price = JSNum.nan) :
    sumPrices L = JSNum.nan := by
  induction L with
  | nil => cases hi
  | cons j t ih =>
    rcases List.mem_cons.mp hi with rfl | hm
    · simp [sumPrices, h, jadd]
    · rw [sumPrices, ih hm, jadd_nan_right]

theorem toFixed2_zero : toFixed2 (JSNum.num 0) = "0.00" := by
  have h : toFixed2 (JSNum.num 0) = fixedDigits2 0 := by
    unfold toFixed2
    norm_num
  rw [h]
  unfold fixedDigits2
  have hf : ⌊(100 : ℚ) * 0 + 1 / 2⌋ = 0 := by norm_num
  rw [hf]
  decide

theorem jsNumberOfString_35 : jsNumberOfString "3.5" = JSNum.num (7 / 2) := by
  have h : jsNumberOfString "3.5" = JSNum.num ((3 : ℚ) + 5 / 10 ^ 1) := rfl
  rw [h]
  norm_num

/-- C1: for every item list `L` the derived total is the sum of the price
fields of `L` formatted to two decimal places, the total of the empty list is
`"0.00"`, and the total row is rendered exactly when `L` is non-empty. -/
theorem C1_total_derivation (L : List Item) :
    computeTotal L = toFixed2 (sumPrices L) ∧
    computeTotal [] = "0.00" ∧
    (totalRowRendered L = true ↔ L ≠ []) := by
  refine ⟨computeTotal_eq L, ?_, ?_⟩
  · show toFixed2 (JSNum.num 0) = "0.00"
    exact toFixed2_zero
  · simp [totalRowRendered, List.length_pos]

/-- C2: when the draft name trims to the empty string, `addItem` sets the
name error and issues no store write, whatever the price field or the store
would have answered (the name check is first and first failure wins). -/
theorem C2_empty_name_rejected (s : AppState) (now : ℕ) (res : StoreResult)
    (h : jsTrim s.newItem.name = "") :
    addItem s now res = ({ s with error := some "Please enter an expense name." }, none) := by
  simp [addItem, h]

theorem C2_witness :
    addItem { items := [], newItem := { name := "   ", price := "5" }, total := "0",
              error := some "old" } 0 StoreResult.ok =
      ({ items := [], newItem := { name := "   ", price := "5" }, total := "0",
         error := some "Please enter an expense name." }, none) :=
  C2_empty_name_rejected
    { items := [], newItem := { name := "   ", price := "5" }, total := "0",
      error := some "old" } 0 StoreResult.ok (by decide)

/-- C3: when the draft name trims non-empty, an empty price string makes
`addItem` set the amount error and issue no write, while any non-empty price
string (numeric or not) passes validation and a write is issued. -/
theorem C3_amount_validation (s : AppState) (now : ℕ) (res : StoreResult)
    (hn : jsTrim s.newItem.name ≠ "") :
    (s.newItem.price = "" →
      addItem s now res = ({ s with error := some "Please enter an amount." }, none)) ∧
    (s.newItem.price ≠ "" → (addItem s now res).2.isSome = true) := by
  constructor
  · intro hp
    simp [addItem, hn, hp]
  · intro hp
    unfold addItem
    rw [if_neg hn, if_neg hp]
    cases res <;> simp

theorem C3_witness :
    (("abc" : String) = "" →
      addItem { items := [], newItem := { name := " Tea ", price := "abc" }, total := "0",
                error := none } 0 StoreResult.ok =
        ({ items := [], newItem := { name := " Tea ", price := "abc" }, total := "0",
           error := some "Please enter an amount." }, none)) ∧
    (("abc" : String) ≠ "" →
      (addItem { items := [], newItem := { name := " Tea ", price := "abc" }, total := "0",
                 error := none } 0 StoreResult.ok).2.isSome = true) :=
  C3_amount_validation
    { items := [], newItem := { name := " Tea ", price := "abc" }, total := "0", error := none }
    0 StoreResult.ok (by decide)

/-- C4: for every draft passing validation, a successful add hands the store a
record with the trimmed name, the `Number`-coerced price and the current time,
and resets the draft to empty strings (leaving `error` cleared). -/
theorem C4_success_submits (s : AppState) (now : ℕ)
    (hn : jsTrim s.newItem.name ≠ "") (hp : s.newItem.price ≠ "") :
    addItem s now StoreResult.ok =
      ({ s with error := none, newItem := { name := "", price := "" } },
       some { name := jsTrim s.newItem.name,
              price := jsNumberOfString s.newItem.price, createdAt := now }) := by
  simp [addItem, hn, hp]

theorem C4_witness :
    addItem { items := [], newItem := { name := "Coffee", price := "3.5" }, total := "0",
              error := none } 42 StoreResult.ok =
      ({ items := [], newItem := { name := "", price := "" }, total := "0", error := none },
       some { name := "Coffee", price := JSNum.num (7 / 2), createdAt := 42 }) := by
  rw [C4_success_submits
    { items := [], newItem := { name := "Coffee", price := "3.5" }, total := "0", error := none }
    42 (by decide) (by decide)]
  rw [jsNumberOfString_35]
  rfl

/-- C5: when the store write of a validated add fails, `addItem` sets the
failure message and changes nothing else: the draft, the item list and the
total are preserved exactly. -/
theorem C5_failed_add (s : AppState) (now : ℕ)
    (hn : jsTrim s.newItem.name ≠ "") (hp : s.newItem.price ≠ "") :
    (addItem s now StoreResult.failure).1 =
      { s with error := some "Failed to add item. Please try again." } ∧
    (addItem s now StoreResult.failure).1.newItem = s.newItem ∧
    (addItem s now StoreResult.failure).1.items = s.items ∧
    (addItem s now StoreResult.failure).1.total = s.total := by
  simp [addItem, hn, hp]

theorem C5_witness :
    (addItem { items := [], newItem := { name := "Tea", price := "2" }, total := "0",
               error := none } 7 StoreResult.failure).1 =
      { items := [], newItem := { name := "Tea", price := "2" }, total := "0",
        error := some "Failed to add item. Please try again." } ∧
    (addItem { items := [], newItem := { name := "Tea", price := "2" }, total := "0",
               error := none } 7 StoreResult.failure).1.newItem =
      { name := "Tea", price := "2" } ∧
    (addItem { items := [], newItem := { name := "Tea", price := "2" }, total := "0",
               error := none } 7 StoreResult.failure).1.items = [] ∧
    (addItem { items := [], newItem := { name := "Tea", price := "2" }, total := "0",
               error := none } 7 StoreResult.failure).1.total = "0" :=
  C5_failed_add
    { items := [], newItem := { name := "Tea", price := "2" }, total := "0", error := none }
    7 (by decide) (by decide)

/-- C6 counterexample: the draft `{name := "A", price := "-5"}` passes the
add validation and the record written to the store has price `-5`, which is
not a non-negative number, so the claimed invariant is not enforced by the
add operation's validation. -/
theorem C6_counterexample :
    (addItem { items := [], newItem := { name := "A", price := "-5" }, total := "0",
               error := none } 0 StoreResult.ok).2 =
      some { name := "A", price := JSNum.num (-5), createdAt := 0 } ∧
    priceOk (JSNum.num (-5)) = false := by
  constructor
  · decide
  · decide

/-- C6 (amended): every record the add operation writes has a non-empty name,
namely the trimmed draft name; its price is the `Number` coercion of the
draft price string and is not constrained to be numeric or non-negative. -/
theorem C6_written_records (s : AppState) (now : ℕ) (res : StoreResult) (r : NewRecord)
    (h : (addItem s now res).2 = some r) :
    r.name ≠ "" ∧ r.name = jsTrim s.newItem.name ∧
    r.price = jsNumberOfString s.newItem.price := by
  unfold addItem at h
  by_cases hn : jsTrim s.newItem.name = ""
  · rw [if_pos hn] at h
    simp at h
  · rw [if_neg hn] at h
    by_cases hp : s.newItem.price = ""
    · rw [if_pos hp] at h
      simp at h
    · rw [if_neg hp] at h
      cases res <;> simp only [Option.some.injEq] at h <;> subst h <;> exact ⟨hn, rfl, rfl⟩

theorem C6_written_records_witness :
    ("A" : String) ≠ "" ∧ ("A" : String) = jsTrim "A" ∧
    JSNum.num (-5) = jsNumberOfString "-5" :=
  C6_written_records
    { items := [], newItem := { name := "A", price := "-5" }, total := "0", error := none }
    0 StoreResult.ok { name := "A", price := JSNum.num (-5), createdAt := 0 } (by decide)

/-- C8: the subscription-callback update is idempotent: delivering the same
snapshot twice in a row yields the same `items` and the same `total` as
delivering it once. -/
theorem C8_snapshot_idempotent (s : AppState) (docs : List SnapshotDoc) :
    (snapshotStep (snapshotStep s docs) docs).items = (snapshotStep s docs).items ∧
    (snapshotStep (snapshotStep s docs) docs).total = (snapshotStep s docs).total :=
  ⟨rfl, rfl⟩

/-- C9: when the user declines the confirmation prompt, `deleteItem` issues no
store call and returns the state unchanged — items, draft, total and any
previously set error message all stay as they were. -/
theorem C9_delete_declined (s : AppState) (itemId : String) (res : StoreResult) :
    deleteItem s itemId false res = (s, none) :=
  rfl

/-- C10: when some document of a snapshot has a stored price that does not
coerce to a number, the mapped item's price is NaN, and the derived total of
the delivered snapshot is the string `"NaN"`. -/
theorem C10_nan_total (s : AppState) (docs : List SnapshotDoc) (d : SnapshotDoc)
    (hd : d ∈ docs) (hnan : jsNumber d.price = JSNum.nan) :
    (∃ i ∈ (snapshotStep s docs).items, i.price = JSNum.nan) ∧
    (snapshotStep s docs).total = "NaN" := by
  have hmem : ({ id := d.id, name := d.name, price := jsNumber d.price,
                 createdAt := d.createdAt } : Item) ∈ snapshotItems docs :=
    List.mem_map_of_mem _ hd
  constructor
  · exact ⟨_, hmem, hnan⟩
  · show computeTotal (snapshotItems docs) = "NaN"
    rw [computeTotal_eq, sumPrices_nan hmem hnan]
    rfl

theorem C10_witness :
    (∃ i ∈ (snapshotStep { items := [], newItem := { name := "", price := "" }, total := "0",
                           error := none }
        [{ id := "d1", name := "A", price := StoredVal.str "abc", createdAt := 0 }]).items,
      i.price = JSNum.nan) ∧
    (snapshotStep { items := [], newItem := { name := "", price := "" }, total := "0",
                    error := none }
        [{ id := "d1", name := "A", price := StoredVal.str "abc", createdAt := 0 }]).total =
      "NaN" :=
  C10_nan_total
    { items := [], newItem := { name := "", price := "" }, total := "0", error := none }
    [{ id := "d1", name := "A", price := StoredVal.str "abc", createdAt := 0 }]
    { id := "d1", name := "A", price := StoredVal.str "abc", createdAt := 0 }
    (by simp) (by decide)
